import Mathlib

/-!
Verification of the MPLADS analytics dashboard backend
(`src/backend/main.py`) against its natural-language specification.

Modelling conventions:
* Python `float` amounts are modelled exactly over `ℚ`; the claims under
  scrutiny are about which records contribute to which aggregate, not about
  binary rounding of IEEE doubles.
* Python `datetime` values produced by `_parse_portal_date` are always at
  midnight, so comparisons against another datetime `now` coincide with
  comparisons of the calendar dates; dates are modelled as
  year/month/day triples ordered lexicographically.
* `None`-able SQL columns are modelled with `Option`; Python truthiness
  (`x or d`, `if x:`) is modelled explicitly for each type.
* The hidden `datetime.now()` read inside `_clamp_date_range` is made
  explicit as a `now : Date` argument representing the ambient wall clock
  at the moment of the call.
-/

namespace Govwork

/-- Calendar date (the date part of a Python `datetime`). -/
structure Date where
  year : Nat
  month : Nat
  day : Nat
deriving DecidableEq, Repr

/-- Lexicographic strict order on dates, matching Python `datetime`
comparison for midnight values. -/
def Date.ltb (a b : Date) : Bool :=
  a.year < b.year ||
    (a.year == b.year &&
      (a.month < b.month || (a.month == b.month && a.day < b.day)))

instance : LT Date := ⟨fun a b => Date.ltb a b = true⟩

instance (a b : Date) : Decidable (a < b) :=
  inferInstanceAs (Decidable (Date.ltb a b = true))

/-- Gregorian leap-year test, as used by `datetime`. -/
def isLeapYear (y : Nat) : Bool :=
  (y % 4 == 0 && y % 100 != 0) || y % 400 == 0

/-- Number of days in a month, as validated by the `datetime` constructor. -/
def daysInMonth (y m : Nat) : Nat :=
  if m = 2 then (if isLeapYear y then 29 else 28)
  else if m = 4 ∨ m = 6 ∨ m = 9 ∨ m = 11 then 30
  else 31

/-- `datetime(year, month, day)`: succeeds only for a valid calendar date
(`strptime` raises `ValueError` otherwise, which the source treats as a
parse failure for that format). -/
def mkDate (y m d : Nat) : Option Date :=
  if 1 ≤ y ∧ 1 ≤ m ∧ m ≤ 12 ∧ 1 ≤ d ∧ d ≤ daysInMonth y m then
    some ⟨y, m, d⟩
  else
    none

/-! ### `_parse_portal_date` (DateNormalizer)

The source tries `strptime` with the formats
`"%d-%b-%Y"`, `"%d-%b-%y"`, `"%d/%m/%Y"`, `"%Y-%m-%d"` in order and
returns the first success. CPython `strptime` compiles each directive to
a regex alternation; we reproduce those alternations, trying branches in
the same order with backtracking into the remainder of the format, and
then validate the day of month exactly as the `datetime` constructor
does. -/

/-- ASCII whitespace stripped by Python `str.strip()`. -/
def isSpaceChar (c : Char) : Bool :=
  c == ' ' || c == '\t' || c == '\n' || c == '\r' ||
    c == Char.ofNat 11 || c == Char.ofNat 12

/-- Python `str.strip()` on a character list. -/
def pyStrip (cs : List Char) : List Char :=
  ((cs.dropWhile isSpaceChar).reverse.dropWhile isSpaceChar).reverse

/-- Python `str.lower()` (ASCII-relevant part). -/
def lowerChars (cs : List Char) : List Char :=
  cs.map Char.toLower

/-- Digit value of an ASCII digit character. -/
def digitVal (c : Char) : Nat := c.toNat - 48

/-- `%d` regex branch `3[01]`. -/
def altD31 : List Char → List (Nat × List Char)
  | '3' :: c :: rest =>
    if c = '0' ∨ c = '1' then [(30 + digitVal c, rest)] else []
  | _ => []

/-- `%d` regex branch `[12]\d`. -/
def altD12x : List Char → List (Nat × List Char)
  | c1 :: c2 :: rest =>
    if (c1 = '1' ∨ c1 = '2') ∧ c2.isDigit then
      [(digitVal c1 * 10 + digitVal c2, rest)]
    else []
  | _ => []

/-- Regex branch `0[1-9]` (shared by `%d` and `%m`). -/
def altD0x : List Char → List (Nat × List Char)
  | '0' :: c :: rest =>
    if c.isDigit ∧ c ≠ '0' then [(digitVal c, rest)] else []
  | _ => []

/-- Regex branch `[1-9]` (shared by `%d` and `%m`). -/
def altD1 : List Char → List (Nat × List Char)
  | c :: rest =>
    if c.isDigit ∧ c ≠ '0' then [(digitVal c, rest)] else []
  | _ => []

/-- `%m` regex branch `1[0-2]`. -/
def altM1x : List Char → List (Nat × List Char)
  | '1' :: c :: rest =>
    if c = '0' ∨ c = '1' ∨ c = '2' then [(10 + digitVal c, rest)] else []
  | _ => []

/-- Branches of the `%d` directive, in regex order. -/
def dayTok (cs : List Char) : List (Nat × List Char) :=
  altD31 cs ++ altD12x cs ++ altD0x cs ++ altD1 cs

/-- Branches of the `%m` directive, in regex order. -/
def monthNumTok (cs : List Char) : List (Nat × List Char) :=
  altM1x cs ++ altD0x cs ++ altD1 cs

/-- Abbreviated month names accepted by `%b` (C locale, matched
case-insensitively). -/
def monthNames : List (List Char × Nat) :=
  [("jan".data, 1), ("feb".data, 2), ("mar".data, 3), ("apr".data, 4),
   ("may".data, 5), ("jun".data, 6), ("jul".data, 7), ("aug".data, 8),
   ("sep".data, 9), ("oct".data, 10), ("nov".data, 11), ("dec".data, 12)]

/-- The `%b` directive: a three-letter abbreviated month name. -/
def monthTok (cs : List Char) : List (Nat × List Char) :=
  match cs with
  | a :: b :: c :: rest =>
    match (monthNames.find? (fun p => p.1 == lowerChars [a, b, c])) with
    | some p => [(p.2, rest)]
    | none => []
  | _ => []

/-- The `%Y` directive: exactly four digits. -/
def year4Tok : List Char → List (Nat × List Char)
  | a :: b :: c :: d :: rest =>
    if a.isDigit ∧ b.isDigit ∧ c.isDigit ∧ d.isDigit then
      [(digitVal a * 1000 + digitVal b * 100 + digitVal c * 10 + digitVal d,
        rest)]
    else []
  | _ => []

/-- The `%y` directive: exactly two digits, mapped to 1969–2068 as CPython
does. -/
def year2Tok : List Char → List (Nat × List Char)
  | a :: b :: rest =>
    if a.isDigit ∧ b.isDigit then
      let v := digitVal a * 10 + digitVal b
      [(if v ≤ 68 then 2000 + v else 1900 + v, rest)]
    else []
  | _ => []

/-- A literal character in a format string. -/
def litTok (ch : Char) : List Char → List (Unit × List Char)
  | c :: rest => if c = ch then [((), rest)] else []
  | _ => []

/-- Try the branches of one token in order, continuing the parse with each
match (regex backtracking). -/
def seqTok {α β : Type} (p : List Char → List (α × List Char))
    (k : α → List Char → Option β) (cs : List Char) : Option β :=
  (p cs).findSome? (fun x => k x.1 x.2)

/-- `strptime(value, "%d-%b-%Y")`. -/
def parseFmtDbY (cs : List Char) : Option Date :=
  seqTok dayTok (fun d cs1 =>
    seqTok (litTok '-') (fun _ cs2 =>
      seqTok monthTok (fun m cs3 =>
        seqTok (litTok '-') (fun _ cs4 =>
          seqTok year4Tok (fun y cs5 =>
            if cs5 = [] then mkDate y m d else none) cs4) cs3) cs2) cs1) cs

/-- `strptime(value, "%d-%b-%y")`. -/
def parseFmtDby (cs : List Char) : Option Date :=
  seqTok dayTok (fun d cs1 =>
    seqTok (litTok '-') (fun _ cs2 =>
      seqTok monthTok (fun m cs3 =>
        seqTok (litTok '-') (fun _ cs4 =>
          seqTok year2Tok (fun y cs5 =>
            if cs5 = [] then mkDate y m d else none) cs4) cs3) cs2) cs1) cs

/-- `strptime(value, "%d/%m/%Y")`. -/
def parseFmtDmY (cs : List Char) : Option Date :=
  seqTok dayTok (fun d cs1 =>
    seqTok (litTok '/') (fun _ cs2 =>
      seqTok monthNumTok (fun m cs3 =>
        seqTok (litTok '/') (fun _ cs4 =>
          seqTok year4Tok (fun y cs5 =>
            if cs5 = [] then mkDate y m d else none) cs4) cs3) cs2) cs1) cs

/-- `strptime(value, "%Y-%m-%d")`. -/
def parseFmtIso (cs : List Char) : Option Date :=
  seqTok year4Tok (fun y cs1 =>
    seqTok (litTok '-') (fun _ cs2 =>
      seqTok monthNumTok (fun m cs3 =>
        seqTok (litTok '-') (fun _ cs4 =>
          seqTok dayTok (fun d cs5 =>
            if cs5 = [] then mkDate y m d else none) cs4) cs3) cs2) cs1) cs

/-- The ordered format list tried by `_parse_portal_date`. -/
def portalFormats : List (List Char → Option Date) :=
  [parseFmtDbY, parseFmtDby, parseFmtDmY, parseFmtIso]

/-- Sentinel test of `_parse_portal_date`: empty after stripping, or the
literal token `nan` in any letter case. -/
def isNanOrEmpty (cs : List Char) : Bool :=
  cs == [] || lowerChars cs == "nan".data

/-- `_parse_portal_date(value)` from `src/backend/main.py`. -/
def parsePortalDate : Option String → Option Date
  | none => none
  | some s =>
    let cs := pyStrip s.data
    if isNanOrEmpty cs then none
    else portalFormats.findSome? (fun f => f cs)

/-! ### `_clamp_date_range` (plausibility filter)

The source reads `now = datetime.now()` inside the function body; the
hidden wall-clock read is modelled as the explicit argument `now`, the
ambient clock value at the moment of the call. -/

/-- `_clamp_date_range(dts)` from `src/backend/main.py`, with the internal
`datetime.now()` read made explicit as `now`. -/
def clampDateRange (now : Date) : List Date → List Date
  | [] => []
  | d :: rest =>
    if d.year < 2000 then clampDateRange now rest
    else if Date.ltb now d then clampDateRange now rest
    else d :: clampDateRange now rest

/-- Calendar successor of a date (used to express "one day after now"). -/
def nextDay (d : Date) : Date :=
  if d.day < daysInMonth d.year d.month then ⟨d.year, d.month, d.day + 1⟩
  else if d.month < 12 then ⟨d.year, d.month + 1, 1⟩
  else ⟨d.year + 1, 1, 1⟩

/-! ### Python truthiness helpers -/

/-- Python `x or 0` followed by `float(...)` on a nullable numeric column:
`None` and `0` both give `0`. -/
def pyOr0 (a : Option ℚ) : ℚ :=
  match a with
  | none => 0
  | some x => x

/-- Python `x or d` on a nullable numeric value (`None` and `0` are falsy). -/
def pyOrQ (a : Option ℚ) (d : ℚ) : ℚ :=
  match a with
  | none => d
  | some x => if x = 0 then d else x

/-- Python truthiness of a nullable numeric value. -/
def truthyQ (a : Option ℚ) : Bool :=
  match a with
  | none => false
  | some x => x != 0

/-- Python truthiness of a nullable string (`None` and `""` are falsy). -/
def truthyS (s : Option String) : Bool :=
  match s with
  | none => false
  | some v => v != ""

/-! ### MetricCalculator: utilization-rate expressions

Each endpoint inlines its own guard; they are not all the same. -/

/-- CPython `round(x, 2)` (modelled on `ℚ`; exact for the values at issue,
tie-breaking of inexact binary doubles is outside the `ℚ` model). -/
def round2 (q : ℚ) : ℚ := (round (q * 100) : ℤ) / 100

/-- `utilization_rate` of one row of `GET /api/mps` (`get_mps_list`):
`allocated = row[3] or 1`, `spent = row[5] or 0`,
`round((spent / allocated) * 100, 2)`. -/
def mpsListUtilizationRate (allocatedRaw spentRaw : Option ℚ) : ℚ :=
  round2 (pyOr0 spentRaw / pyOrQ allocatedRaw 1 * 100)

/-- `stats.utilization` of `GET /api/mps/{mp_name}` (`get_mp_detail`):
`(total_spent / basic[3] * 100) if basic[3] else 0`. -/
def mpDetailUtilization (allocated : Option ℚ) (totalSpent : ℚ) : ℚ :=
  if truthyQ allocated then totalSpent / pyOr0 allocated * 100 else 0

/-- `utilization_rate` of `GET /api/mps/{mp_name}/insights`
(`get_mp_insights`):
`(total_spent / (basic[3] or 1) * 100) if (basic[3] or 0) else 0`. -/
def mpInsightsUtilizationRate (allocated : Option ℚ) (totalSpent : ℚ) : ℚ :=
  if truthyQ allocated then totalSpent / pyOrQ allocated 1 * 100 else 0

/-! ### `get_category_radar`: expenditure aggregation -/

/-- One row of the `expenditure` fetch in `get_category_radar`
(`ACTIVITY_NAME, FUND_DISBURSED_AMT, EXPENDITURE_DATE, MP_NAME,
VENDOR_NAME, STATE_NAME`; all columns nullable). -/
structure ExpRow where
  activity : Option String
  amount : Option ℚ
  dateRaw : Option String
  mpName : Option String
  vendorName : Option String
  stateName : Option String
deriving DecidableEq, Repr

/-- `activity = r[0] or "(Unknown)"`: the sentinel bucket for a missing or
empty activity. -/
def catKey (a : Option String) : String :=
  match a with
  | none => "(Unknown)"
  | some s => if s = "" then "(Unknown)" else s

/-- `_dt_in_range(dt, from_dt, to_dt)` from `src/backend/main.py`. -/
def dtInRange (d : Date) (fromDt toDt : Option Date) : Bool :=
  (match fromDt with
   | none => true
   | some f => !(Date.ltb d f)) &&
  (match toDt with
   | none => true
   | some t => !(Date.ltb t d))

/-- The radar loop keeps a record unless its date parses and falls outside
the active range (`if dt and not _dt_in_range(...): continue`). -/
def radarKeeps (fromDt toDt : Option Date) (r : ExpRow) : Bool :=
  match parsePortalDate r.dateRaw with
  | none => true
  | some d => dtInRange d fromDt toDt

/-- One equality filter of the SQL scope (`WHERE COL = :v` appended only
when the query parameter is truthy; `NULL = v` is false in SQL). -/
def matchCol (filt : Option String) (col : Option String) : Bool :=
  match filt with
  | none => true
  | some s => if s = "" then true else col == some s

/-- The SQL scope filter of `get_category_radar` over the expenditure
table (`state`, `mp`, `vendor` equality predicates). -/
def dbScopeFilter (state mp vendor : Option String) (rows : List ExpRow) :
    List ExpRow :=
  rows.filter (fun r =>
    matchCol state r.stateName && matchCol mp r.mpName &&
      matchCol vendor r.vendorName)

/-- Python-dict accumulation: add `a` to key `k`, updating in place when
present, appending (insertion order) when absent. -/
def bumpAssoc (l : List (String × ℚ)) (k : String) (a : ℚ) :
    List (String × ℚ) :=
  match l with
  | [] => [(k, a)]
  | (k0, v) :: rest =>
    if k0 = k then (k0, v + a) :: rest else (k0, v) :: bumpAssoc rest k a

/-- Dict lookup with default `0` (`d.get(k, 0.0)`). -/
def assocGetD : List (String × ℚ) → String → ℚ
  | [], _ => 0
  | (k0, v) :: rest, k => if k0 = k then v else assocGetD rest k

/-- One iteration of the radar aggregation loop, projected onto the spent
mass: accumulates `total_spend` and `cats[activity]["spent"]` (the MP and
vendor coverage sets of the source are irrelevant to mass conservation
and omitted). -/
def radarStep (fromDt toDt : Option Date) (acc : ℚ × List (String × ℚ))
    (r : ExpRow) : ℚ × List (String × ℚ) :=
  if radarKeeps fromDt toDt r then
    (acc.1 + pyOr0 r.amount, bumpAssoc acc.2 (catKey r.activity) (pyOr0 r.amount))
  else acc

/-- The radar aggregation loop over fetched rows, producing
`(total_spend, per-category spent)`. -/
def radarAgg (rows : List ExpRow) (fromDt toDt : Option Date) :
    ℚ × List (String × ℚ) :=
  rows.foldl (radarStep fromDt toDt) (0, [])

/-- Spec-side description of `total_spend`: the sum of amounts over
exactly the records surviving the date-range filter. -/
def specSurvivorSum (rows : List ExpRow) (fromDt toDt : Option Date) : ℚ :=
  ((rows.filter (radarKeeps fromDt toDt)).map (fun r => pyOr0 r.amount)).sum

/-- Spec-side description of one category bucket: the sum of amounts over
surviving records whose (sentinel-completed) activity is `k`. -/
def specBucketSum (rows : List ExpRow) (fromDt toDt : Option Date)
    (k : String) : ℚ :=
  ((rows.filter (fun r => radarKeeps fromDt toDt r && catKey r.activity == k)).map
    (fun r => pyOr0 r.amount)).sum

/-- Sum of the per-bucket totals of an association list. -/
def sumSnd (l : List (String × ℚ)) : ℚ := (l.map Prod.snd).sum

/-! ### `get_category_radar`: baseline lift -/

/-- Spec-side `national_share` (§4.4): national category spend over
national total spend, `0` when the national total is `0`. -/
def radarNatShare (allRows : List ExpRow) (fromDt toDt : Option Date)
    (activity : String) : ℚ :=
  if specSurvivorSum allRows fromDt toDt ≠ 0 then
    specBucketSum allRows fromDt toDt activity / specSurvivorSum allRows fromDt toDt
  else 0

/-- Spec-side `scoped_share` (§4.4): scoped category spend over scoped
total spend, `0` when the scoped total is `0`. -/
def radarScopedShare (state mp vendor : Option String) (allRows : List ExpRow)
    (fromDt toDt : Option Date) (activity : String) : ℚ :=
  let scopedRows := dbScopeFilter state mp vendor allRows
  if specSurvivorSum scopedRows fromDt toDt ≠ 0 then
    specBucketSum scopedRows fromDt toDt activity / specSurvivorSum scopedRows fromDt toDt
  else 0

/-- `lift_vs_national` for one category of `get_category_radar`: the
baseline is fetched and aggregated only when `state` is truthy and `mp`,
`vendor` are not; then `lift = state_share / nat_share` when
`nat_share > 0`, else `None`. -/
def radarLiftForCat (state mp vendor : Option String) (allRows : List ExpRow)
    (fromDt toDt : Option Date) (activity : String) : Option ℚ :=
  let scopedRows := dbScopeFilter state mp vendor allRows
  let scopedAgg := radarAgg scopedRows fromDt toDt
  let spent := assocGetD scopedAgg.2 activity
  if truthyS state && !truthyS mp && !truthyS vendor then
    let baseAgg := radarAgg allRows fromDt toDt
    if baseAgg.1 ≠ 0 then
      let natShare := assocGetD baseAgg.2 activity / baseAgg.1
      let stateShare := if scopedAgg.1 ≠ 0 then spent / scopedAgg.1 else 0
      if 0 < natShare then some (stateShare / natShare) else none
    else none
  else none

/-! ### `get_category_radar`: anomaly flags -/

/-- The fields of one entry of the `categories` list consumed by the flag
loop of `get_category_radar`. -/
structure CatProfile where
  activity : String
  spent : ℚ
  mpCount : Nat
  vendorCount : Nat
  completedWorks : Nat
  transparencyPct : ℚ
  top3VendorPct : ℚ
  liftVsNational : Option ℚ
deriving DecidableEq, Repr

/-- An emitted flag (code, severity, subject category). -/
structure RadarFlag where
  code : String
  severity : String
  activity : String
deriving DecidableEq, Repr

/-- The three flag rules evaluated per category in `get_category_radar`
(lines 1478–1507 of `src/backend/main.py`), in source order. -/
def radarFlagsFor (c : CatProfile) : List RadarFlag :=
  (match c.liftVsNational with
   | some l =>
     if 2 ≤ l ∧ 20000000 ≤ c.spent ∧ 5 ≤ c.mpCount then
       [⟨"state_lift", if 3 ≤ l then "high" else "warning", c.activity⟩]
     else []
   | none => []) ++
  (if 20000000 ≤ c.spent ∧ 10 ≤ c.completedWorks ∧ c.transparencyPct ≤ 30 then
     [⟨"high_spend_low_transparency",
       if c.transparencyPct ≤ 15 then "high" else "warning", c.activity⟩]
   else []) ++
  (if 20000000 ≤ c.spent ∧ 70 ≤ c.top3VendorPct ∧ 3 ≤ c.vendorCount then
     [⟨"vendor_concentration",
       if 85 ≤ c.top3VendorPct then "high" else "warning", c.activity⟩]
   else [])

/-! ### `get_work_type_insights`: time series and scalar total -/

/-- One row of the expenditure fetch of `get_work_type_insights`
(`EXPENDITURE_DATE, FUND_DISBURSED_AMT`). -/
structure WtRow where
  dateRaw : Option String
  amount : Option ℚ
deriving DecidableEq, Repr

/-- The parallel `dts` / `amounts` lists of `get_work_type_insights`:
a record enters both exactly when its date parses. -/
def wtPairs (rows : List WtRow) : List (Date × ℚ) :=
  rows.filterMap (fun r =>
    (parsePortalDate r.dateRaw).map (fun d => (d, pyOr0 r.amount)))

/-- `total_spent = sum(amounts) if amounts else 0` of
`get_work_type_insights`. -/
def wtTotalSpent (rows : List WtRow) : ℚ :=
  ((wtPairs rows).map Prod.snd).sum

/-- `strftime("%Y-%m")` padding helpers. -/
def pad4 (n : Nat) : String :=
  (if n < 10 then "000" else if n < 100 then "00"
   else if n < 1000 then "0" else "") ++ toString n

/-- Two-digit zero padding. -/
def pad2 (n : Nat) : String :=
  (if n < 10 then "0" else "") ++ toString n

/-- `_safe_month_key(dt)`: the `YYYY-MM` bucket key. -/
def monthKey (d : Date) : String := pad4 d.year ++ "-" ++ pad2 d.month

/-- Lexicographic comparison of strings by code point (Python `sorted`). -/
def charListLt : List Char → List Char → Bool
  | [], [] => false
  | [], _ :: _ => true
  | _ :: _, [] => false
  | a :: as, b :: bs =>
    if a < b then true else if b < a then false else charListLt as bs

/-- Insert one keyed entry into a key-sorted list. -/
def insertSorted (x : String × ℚ) : List (String × ℚ) → List (String × ℚ)
  | [] => [x]
  | y :: rest =>
    if charListLt x.1.data y.1.data then x :: y :: rest
    else y :: insertSorted x rest

/-- Emit the accumulated month buckets sorted ascending by key
(`for m in sorted(monthly.keys())`). -/
def monthlySeries (pairs : List (Date × ℚ)) : List (String × ℚ) :=
  (pairs.foldl (fun acc (p : Date × ℚ) => bumpAssoc acc (monthKey p.1) p.2) []).foldr
    insertSorted []

/-- The monthly series of `get_work_type_insights`: the date list is
plausibility-clamped and then zipped against the *unclamped* amounts
list, exactly as in the source. -/
def wtMonthly (now : Date) (rows : List WtRow) : List (String × ℚ) :=
  monthlySeries
    (List.zip (clampDateRange now ((wtPairs rows).map Prod.fst))
      ((wtPairs rows).map Prod.snd))

/-! ### MP profile endpoints: not-found handling -/

/-- An HTTP error raised or returned by an endpoint. -/
structure HttpError where
  status : Nat
  detail : String
deriving DecidableEq, Repr

/-- `str(exc)` of a FastAPI/Starlette `HTTPException`:
`f"{status_code}: {detail}"`. -/
def httpErrStr (e : HttpError) : String :=
  toString e.status ++ ": " ++ e.detail

/-- One row of the `allocated` table. -/
structure AllocRow where
  mpName : String
  state : String
  constituency : String
  allocated : Option ℚ
deriving DecidableEq, Repr

/-- The `info` block assembled from the allocation row. -/
structure MpInfo where
  name : String
  state : String
  constituency : String
  allocated : Option ℚ
deriving DecidableEq, Repr

/-- `SELECT ... FROM allocated WHERE MP_NAME = :mp_name` + `fetchone()`. -/
def findAlloc (alloc : List AllocRow) (mp : String) : Option AllocRow :=
  alloc.find? (fun a => a.mpName == mp)

/-- The body of `get_mp_detail` restricted to the lookup-and-404 path:
raises `HTTPException(404, "MP not found")` when the MP is absent. -/
def mpLookupBody (alloc : List AllocRow) (mp : String) :
    Except HttpError MpInfo :=
  match findAlloc alloc mp with
  | none => Except.error ⟨404, "MP not found"⟩
  | some a => Except.ok ⟨a.mpName, a.state, a.constituency, a.allocated⟩

/-- `GET /api/mps/{mp_name}` (`get_mp_detail`): the body runs inside
`try ... except Exception as e: raise HTTPException(500, str(e))`, and
`HTTPException` is a subclass of `Exception`, so the endpoint's own 404
is re-wrapped as a 500. -/
def mpDetailEndpoint (alloc : List AllocRow) (mp : String) :
    Except HttpError MpInfo :=
  match mpLookupBody alloc mp with
  | Except.error e => Except.error ⟨500, httpErrStr e⟩
  | Except.ok p => Except.ok p

/-- `GET /api/mps/{mp_name}/insights` (`get_mp_insights`): its handler has
`except HTTPException: raise` before the blanket clause, so the 404
propagates unchanged. -/
def mpInsightsEndpoint (alloc : List AllocRow) (mp : String) :
    Except HttpError MpInfo :=
  match mpLookupBody alloc mp with
  | Except.error e => Except.error e
  | Except.ok p => Except.ok p

/-! ### `_start_refresh_job`: registry state machine -/

/-- Status of a refresh job in the in-memory registry. -/
inductive JobStatus
  | running
  | succeeded
  | failed
deriving DecidableEq, Repr

/-- The registry entry fields relevant to the lifecycle claim. -/
structure JobRec where
  status : JobStatus
  finishedAt : Option String
  error : Option String
deriving DecidableEq, Repr

/-- The sequence of registry states of one job produced by
`_start_refresh_job`: creation (`running`), then the `try`/`except`
status update (plus the error write on failure), then the `finally`
`finished_at` write. `outcome` abstracts the fetch/ETL body. -/
def jobTrace (outcome : Except String Unit) (finishTime : String) :
    List JobRec :=
  match outcome with
  | Except.ok _ =>
    [⟨.running, none, none⟩, ⟨.succeeded, none, none⟩,
     ⟨.succeeded, some finishTime, none⟩]
  | Except.error e =>
    [⟨.running, none, none⟩, ⟨.failed, none, none⟩,
     ⟨.failed, none, some e⟩, ⟨.failed, some finishTime, some e⟩]

/-- Number of adjacent status changes along a trace. -/
def statusChanges : List JobStatus → Nat
  | a :: b :: rest => (if a ≠ b then 1 else 0) + statusChanges (b :: rest)
  | _ => 0

/-- The terminal status dictated by the body's outcome. -/
def finalStatus (outcome : Except String Unit) : JobStatus :=
  match outcome with
  | Except.ok _ => .succeeded
  | Except.error _ => .failed

/-! ### `search_items`: short-query guard -/

/-- The storage boundary consulted by `search_items`: one query function
per result family, keyed by the SQL `LIKE` pattern. -/
structure SearchStorage where
  mpQuery : String → List (String × String × String)
  vendorQuery : String → List (String × Nat × Option ℚ)
  activityQuery : String → List (String × Option ℚ)
  stateQuery : String → List (String × Option ℚ)

/-- One typed result of the universal search. -/
inductive SearchItem
  | mp (label state constituency : String)
  | vendor (label : String) (mpCount : Nat) (totalReceived : ℚ)
  | workType (label : String) (totalSpent : ℚ)
  | state (label : String) (spent : ℚ)
deriving DecidableEq, Repr

/-- `GET /api/search` (`search_items`): returns the result list together
with the number of storage queries issued. `if len(q) < 2: return []`
precedes every database access. -/
def searchItems (q : String) (db : SearchStorage) : List SearchItem × Nat :=
  if q.length < 2 then ([], 0)
  else
    let likeQ := "%" ++ q ++ "%"
    let mps := (db.mpQuery likeQ).map (fun r => SearchItem.mp r.1 r.2.1 r.2.2)
    let vendors := (db.vendorQuery likeQ).map
      (fun r => SearchItem.vendor r.1 r.2.1 (pyOr0 r.2.2))
    let acts := (db.activityQuery likeQ).map
      (fun r => SearchItem.workType r.1 (pyOr0 r.2))
    let states := (db.stateQuery likeQ).map
      (fun r => SearchItem.state r.1 (pyOr0 r.2))
    (mps ++ vendors ++ acts ++ states, 4)

/-! ## Helper lemmas -/

theorem sumSnd_nil : sumSnd [] = 0 := rfl

theorem sumSnd_cons (p : String × ℚ) (l : List (String × ℚ)) :
    sumSnd (p :: l) = p.2 + sumSnd l := by
  simp [sumSnd]

theorem sumSnd_bumpAssoc (l : List (String × ℚ)) (k : String) (a : ℚ) :
    sumSnd (bumpAssoc l k a) = sumSnd l + a := by
  induction l with
  | nil => simp [bumpAssoc, sumSnd]
  | cons hd tl ih =>
    obtain ⟨k0, v⟩ := hd
    by_cases h : k0 = k
    · simp [bumpAssoc, h, sumSnd_cons]
      ring
    · simp [bumpAssoc, h, sumSnd_cons, ih]
      ring

theorem assocGetD_bumpAssoc (l : List (String × ℚ)) (k : String) (a : ℚ)
    (q : String) :
    assocGetD (bumpAssoc l k a) q =
      assocGetD l q + (if k = q then a else 0) := by
  induction l with
  | nil =>
    by_cases h : k = q <;> simp [bumpAssoc, assocGetD, h]
  | cons hd tl ih =>
    obtain ⟨k0, v⟩ := hd
    by_cases h : k0 = k
    · subst h
      by_cases hq : k0 = q <;> simp [bumpAssoc, assocGetD, hq]
    · by_cases hq : k0 = q
      · subst hq
        have : ¬ k = k0 := fun he => h he.symm
        simp [bumpAssoc, h, assocGetD, this]
      · simp [bumpAssoc, h, assocGetD, hq, ih]

theorem specSurvivorSum_cons (r : ExpRow) (rows : List ExpRow)
    (fromDt toDt : Option Date) :
    specSurvivorSum (r :: rows) fromDt toDt =
      (if radarKeeps fromDt toDt r then pyOr0 r.amount else 0) +
        specSurvivorSum rows fromDt toDt := by
  by_cases h : radarKeeps fromDt toDt r <;>
    simp [specSurvivorSum, List.filter_cons, h]

theorem specBucketSum_cons (r : ExpRow) (rows : List ExpRow)
    (fromDt toDt : Option Date) (k : String) :
    specBucketSum (r :: rows) fromDt toDt k =
      (if radarKeeps fromDt toDt r ∧ catKey r.activity = k
       then pyOr0 r.amount else 0) +
        specBucketSum rows fromDt toDt k := by
  by_cases h1 : radarKeeps fromDt toDt r
  · by_cases h2 : catKey r.activity = k <;>
      simp [specBucketSum, List.filter_cons, h1, h2]
  · simp [specBucketSum, List.filter_cons, h1]

theorem radarFold_total (fromDt toDt : Option Date) :
    ∀ (rows : List ExpRow) (acc : ℚ × List (String × ℚ)),
      (rows.foldl (radarStep fromDt toDt) acc).1 =
        acc.1 + specSurvivorSum rows fromDt toDt := by
  intro rows
  induction rows with
  | nil => intro acc; simp [specSurvivorSum]
  | cons r rest ih =>
    intro acc
    rw [List.foldl_cons, ih, specSurvivorSum_cons]
    by_cases h : radarKeeps fromDt toDt r <;> simp [radarStep, h] <;> ring

theorem radarFold_sumSnd (fromDt toDt : Option Date) :
    ∀ (rows : List ExpRow) (acc : ℚ × List (String × ℚ)),
      sumSnd (rows.foldl (radarStep fromDt toDt) acc).2 =
        sumSnd acc.2 + specSurvivorSum rows fromDt toDt := by
  intro rows
  induction rows with
  | nil => intro acc; simp [specSurvivorSum]
  | cons r rest ih =>
    intro acc
    rw [List.foldl_cons, ih, specSurvivorSum_cons]
    by_cases h : radarKeeps fromDt toDt r <;>
      simp [radarStep, h, sumSnd_bumpAssoc] <;> ring

theorem radarFold_getD (fromDt toDt : Option Date) (k : String) :
    ∀ (rows : List ExpRow) (acc : ℚ × List (String × ℚ)),
      assocGetD (rows.foldl (radarStep fromDt toDt) acc).2 k =
        assocGetD acc.2 k + specBucketSum rows fromDt toDt k := by
  intro rows
  induction rows with
  | nil => intro acc; simp [specBucketSum]
  | cons r rest ih =>
    intro acc
    rw [List.foldl_cons, ih, specBucketSum_cons]
    by_cases h : radarKeeps fromDt toDt r
    · by_cases h2 : catKey r.activity = k <;>
        simp [radarStep, h, h2, assocGetD_bumpAssoc] <;> ring
    · simp [radarStep, h]

theorem radarAgg_total (rows : List ExpRow) (fromDt toDt : Option Date) :
    (radarAgg rows fromDt toDt).1 = specSurvivorSum rows fromDt toDt := by
  have h := radarFold_total fromDt toDt rows (0, [])
  simpa [radarAgg] using h

theorem radarAgg_sumSnd (rows : List ExpRow) (fromDt toDt : Option Date) :
    sumSnd (radarAgg rows fromDt toDt).2 = specSurvivorSum rows fromDt toDt := by
  have h := radarFold_sumSnd fromDt toDt rows (0, [])
  simpa [radarAgg, sumSnd] using h

theorem radarAgg_getD (rows : List ExpRow) (fromDt toDt : Option Date)
    (k : String) :
    assocGetD (radarAgg rows fromDt toDt).2 k =
      specBucketSum rows fromDt toDt k := by
  have h := radarFold_getD fromDt toDt k rows (0, [])
  simpa [radarAgg, assocGetD] using h

theorem mem_clampDateRange (now : Date) (dts : List Date) (d : Date) :
    d ∈ clampDateRange now dts ↔
      d ∈ dts ∧ 2000 ≤ d.year ∧ ¬ now < d := by
  induction dts with
  | nil => simp [clampDateRange]
  | cons d0 rest ih =>
    by_cases h1 : d0.year < 2000
    · rw [clampDateRange, if_pos h1]
      constructor
      · intro hm
        rcases (ih.mp hm) with ⟨hmem, hy, hlt⟩
        exact ⟨List.mem_cons_of_mem _ hmem, hy, hlt⟩
      · rintro ⟨hmem, hy, hlt⟩
        rcases List.mem_cons.mp hmem with he | hmem2
        · subst he; omega
        · exact ih.mpr ⟨hmem2, hy, hlt⟩
    · by_cases h2 : Date.ltb now d0
      · rw [clampDateRange, if_neg h1, if_pos h2]
        constructor
        · intro hm
          rcases (ih.mp hm) with ⟨hmem, hy, hlt⟩
          exact ⟨List.mem_cons_of_mem _ hmem, hy, hlt⟩
        · rintro ⟨hmem, hy, hlt⟩
          rcases List.mem_cons.mp hmem with he | hmem2
          · subst he; exact absurd h2 hlt
          · exact ih.mpr ⟨hmem2, hy, hlt⟩
      · rw [clampDateRange, if_neg h1, if_neg h2]
        constructor
        · intro hm
          rcases List.mem_cons.mp hm with he | hm2
          · subst he
            exact ⟨List.mem_cons_self _ _, by omega, h2⟩
          · rcases (ih.mp hm2) with ⟨hmem, hy, hlt⟩
            exact ⟨List.mem_cons_of_mem _ hmem, hy, hlt⟩
        · rintro ⟨hmem, hy, hlt⟩
          rcases List.mem_cons.mp hmem with he | hmem2
          · subst he; exact List.mem_cons_self _ _
          · exact List.mem_cons_of_mem _ (ih.mpr ⟨hmem2, hy, hlt⟩)

theorem lt_nextDay (d : Date) : d < nextDay d := by
  show Date.ltb d (nextDay d) = true
  unfold nextDay
  split_ifs <;> simp [Date.ltb] <;> omega

/-! ## Claims -/

/-- C7 (confirmed). `_parse_portal_date`: a null input, an input that is
empty after stripping, or the literal token `nan` (any letter case)
yields `None`; otherwise the formats `%d-%b-%Y`, `%d-%b-%y`, `%d/%m/%Y`,
`%Y-%m-%d` are tried in that order and the first success is returned;
`normalize("09-Jan-2026")` is 2026-01-09 and `normalize("31-13-2026")`
is `None`. -/
theorem parse_portal_date_contract :
    parsePortalDate none = none
    ∧ (∀ s : String, isNanOrEmpty (pyStrip s.data) = true →
        parsePortalDate (some s) = none)
    ∧ (∀ s : String, isNanOrEmpty (pyStrip s.data) = false →
        parsePortalDate (some s) =
          ((parseFmtDbY (pyStrip s.data)).or
            ((parseFmtDby (pyStrip s.data)).or
              ((parseFmtDmY (pyStrip s.data)).or
                (parseFmtIso (pyStrip s.data))))))
    ∧ parsePortalDate (some "09-Jan-2026") = some ⟨2026, 1, 9⟩
    ∧ parsePortalDate (some "31-13-2026") = none := by
  refine ⟨rfl, ?_, ?_, by decide, by decide⟩
  · intro s h
    simp [parsePortalDate, h]
  · intro s h
    simp only [parsePortalDate, h, Bool.false_eq_true, if_false]
    cases h1 : parseFmtDbY (pyStrip s.data) <;>
      cases h2 : parseFmtDby (pyStrip s.data) <;>
        cases h3 : parseFmtDmY (pyStrip s.data) <;>
          cases h4 : parseFmtIso (pyStrip s.data) <;>
            simp [portalFormats, List.findSome?, h1, h2, h3, h4, Option.or]

/-- Closed witness for `parse_portal_date_contract`, discharging its
hypotheses at concrete inputs: a whitespace-padded `nan` token, and a
date that only the third format accepts. -/
theorem parse_portal_date_contract_witness :
    parsePortalDate (some " NaN ") = none
    ∧ parsePortalDate (some "05/11/2025") = some ⟨2025, 11, 5⟩ := by
  constructor
  · exact parse_portal_date_contract.2.1 " NaN " (by decide)
  · exact (parse_portal_date_contract.2.2.1 "05/11/2025" (by decide)).trans
      (by decide)

/-- C8 counterexample. The claim asserts `now` is an injectable parameter
of the plausibility filter, not read from the wall clock inside it; under
that reading `_clamp_date_range(dts)` would return the same output for the
same `dts` whenever it is called. In the source the function reads
`datetime.now()` internally (modelled as the ambient-clock argument), and
the same date list filters differently under two different ambient clock
values. -/
theorem clamp_wall_clock_counterexample :
    clampDateRange ⟨2027, 1, 1⟩ [⟨2026, 1, 9⟩] = [⟨2026, 1, 9⟩]
    ∧ clampDateRange ⟨2020, 6, 15⟩ [⟨2026, 1, 9⟩] = []
    ∧ ([(⟨2026, 1, 9⟩ : Date)] : List Date) ≠ ([] : List Date) := by
  refine ⟨by decide, by decide, by decide⟩

/-- C8 (amended). Plausibility filtering keeps exactly the dates with
year ≥ 2000 and not strictly after `now`, where `now` is the wall-clock
datetime read inside `_clamp_date_range` at call time (not an injected
parameter); given the same reading the filter is a deterministic
function, and a syntactically well-formed date one day after `now` is
always rejected. -/
theorem clamp_plausibility_amended (now : Date) (dts : List Date) (d : Date) :
    (d ∈ clampDateRange now dts ↔ d ∈ dts ∧ 2000 ≤ d.year ∧ ¬ now < d)
    ∧ now < nextDay now
    ∧ nextDay now ∉ clampDateRange now dts := by
  refine ⟨mem_clampDateRange now dts d, lt_nextDay now, ?_⟩
  intro hmem
  exact ((mem_clampDateRange now dts (nextDay now)).mp hmem).2.2 (lt_nextDay now)

/-- C1 counterexample. In `get_mps_list` the allocated amount is coalesced
with `row[3] or 1`, so an MP with `allocated = 0` and `spent = 50` is
reported with `utilization_rate = 5000.0`, not `0` as the claim states
for every endpoint. -/
theorem mps_list_utilization_counterexample :
    mpsListUtilizationRate (some 0) (some 50) = 5000
    ∧ (5000 : ℚ) ≠ 0 := by
  constructor
  · have h1 : (pyOr0 (some 50) / pyOrQ (some 0) 1 * 100 * 100 : ℚ) =
        ((500000 : ℤ) : ℚ) := by
      norm_num [pyOr0, pyOrQ]
    simp only [mpsListUtilizationRate, round2, h1, round_intCast]
    norm_num
  · norm_num

/-- C1 (amended). When the allocated amount is absent or `0`, the MP
detail and MP insights endpoints report `utilization = 0`, while the MP
list endpoint (`get_mps_list`) coalesces the denominator to `1` and
reports `round(spent * 100, 2)` — no division fault anywhere, but a
spurious value rather than `0` in the list endpoint. When
`allocated > 0`, all three report `spent / allocated * 100`, unclamped
(the list endpoint rounded to two decimals). -/
theorem utilization_rate_guards_amended :
    (∀ (a : Option ℚ) (spentRaw : Option ℚ) (tot : ℚ), truthyQ a = false →
      mpInsightsUtilizationRate a tot = 0
      ∧ mpDetailUtilization a tot = 0
      ∧ mpsListUtilizationRate a spentRaw = round2 (pyOr0 spentRaw / 1 * 100))
    ∧ (∀ (x : ℚ) (spentRaw : Option ℚ) (tot : ℚ), 0 < x →
      mpInsightsUtilizationRate (some x) tot = tot / x * 100
      ∧ mpDetailUtilization (some x) tot = tot / x * 100
      ∧ mpsListUtilizationRate (some x) spentRaw =
          round2 (pyOr0 spentRaw / x * 100)) := by
  constructor
  · intro a spentRaw tot h
    match a with
    | none =>
      refine ⟨rfl, rfl, rfl⟩
    | some x =>
      have hx : x = 0 := by
        by_contra hne
        simp [truthyQ, hne] at h
      subst hx
      refine ⟨?_, ?_, ?_⟩
      · simp [mpInsightsUtilizationRate, truthyQ]
      · simp [mpDetailUtilization, truthyQ]
      · simp [mpsListUtilizationRate, pyOrQ]
  · intro x spentRaw tot hx
    have hne : x ≠ 0 := ne_of_gt hx
    refine ⟨?_, ?_, ?_⟩
    · simp [mpInsightsUtilizationRate, truthyQ, pyOrQ, hne]
    · simp [mpDetailUtilization, truthyQ, pyOr0, hne]
    · simp [mpsListUtilizationRate, pyOrQ, hne]

/-- Closed witness for `utilization_rate_guards_amended` at
`allocated = 0, spent = 50` and `allocated = 200, spent = 50`. -/
theorem utilization_rate_guards_amended_witness :
    (mpInsightsUtilizationRate (some 0) 50 = 0
      ∧ mpDetailUtilization (some 0) 50 = 0
      ∧ mpsListUtilizationRate (some 0) (some 50) =
          round2 (pyOr0 (some 50) / 1 * 100))
    ∧ (mpInsightsUtilizationRate (some 200) 50 = 50 / 200 * 100
      ∧ mpDetailUtilization (some 200) 50 = 50 / 200 * 100
      ∧ mpsListUtilizationRate (some 200) (some 50) =
          round2 (pyOr0 (some 50) / 200 * 100)) := by
  exact ⟨utilization_rate_guards_amended.1 (some 0) (some 50) 50 (by decide),
    utilization_rate_guards_amended.2 200 (some 50) 50 (by norm_num)⟩

/-- C2 (confirmed). In the `get_category_radar` aggregation, for any
fetched record set under any scope filters and any date range: the sum of
the per-category spent totals (missing activities going to the
`"(Unknown)"` sentinel) equals the accumulated `total_spend`, which in
turn equals the sum of amounts over exactly the records surviving the
date-range filter; each category bucket holds exactly the surviving mass
of its key. -/
theorem category_radar_conservation (state mp vendor : Option String)
    (allRows : List ExpRow) (fromDt toDt : Option Date) :
    sumSnd (radarAgg (dbScopeFilter state mp vendor allRows) fromDt toDt).2 =
      (radarAgg (dbScopeFilter state mp vendor allRows) fromDt toDt).1
    ∧ (radarAgg (dbScopeFilter state mp vendor allRows) fromDt toDt).1 =
        specSurvivorSum (dbScopeFilter state mp vendor allRows) fromDt toDt
    ∧ ∀ k, assocGetD
        (radarAgg (dbScopeFilter state mp vendor allRows) fromDt toDt).2 k =
          specBucketSum (dbScopeFilter state mp vendor allRows) fromDt toDt k := by
  refine ⟨?_, radarAgg_total _ _ _, fun k => radarAgg_getD _ _ _ k⟩
  rw [radarAgg_sumSnd, radarAgg_total]

/-- C3 (code_bug). For an MP name absent from the allocation records,
`get_mp_insights` surfaces the intended `HTTPException(404, "MP not
found")`, but `get_mp_detail` raises the same 404 inside its blanket
`except Exception` clause and therefore answers with status 500 (detail
`"404: MP not found"`), contradicting the claim that both endpoints are
404-equivalent. Neither returns a profile object. -/
theorem mp_not_found_status_bug :
    mpDetailEndpoint [⟨"A MP", "S", "C", some 5⟩] "Ghost MP" =
      Except.error ⟨500, "404: MP not found"⟩
    ∧ mpInsightsEndpoint [⟨"A MP", "S", "C", some 5⟩] "Ghost MP" =
        Except.error ⟨404, "MP not found"⟩ := by
  constructor <;> rfl

/-- C4 counterexample. In `get_work_type_insights`, a record whose date
string fails normalization (`"bad-date"`, amount 999) is excluded from
the scalar `total_spent` as well (total is 0, not 999), contrary to the
claim; and a record whose date parses but fails plausibility
(`09-Jan-1999`, amount 100, ambient clock 2026-06-01) is not simply
excluded from the monthly series: the clamped date list is zipped
against the unclamped amounts list, so its amount 100 is mispaired into
the month of the following record and the 5 of that record vanishes. -/
theorem work_type_exclusion_counterexample :
    wtTotalSpent [⟨some "bad-date", some 999⟩] = 0
    ∧ wtMonthly ⟨2026, 6, 1⟩ [⟨some "bad-date", some 999⟩] = []
    ∧ wtMonthly ⟨2026, 6, 1⟩
        [⟨some "09-Jan-1999", some 100⟩, ⟨some "15-Jul-2025", some 5⟩] =
          [("2025-07", 100)]
    ∧ (999 : ℚ) ≠ 0 := by
  refine ⟨by decide, by decide, by decide, by norm_num⟩

/-- C4 (amended). The exclusion asymmetry holds in the category radar,
whose scalar `total_spend` still counts a record with an unparseable date
(the radar computes no monthly series). In `get_work_type_insights`,
however, a record whose date fails normalization contributes to neither
`total_spent` nor the monthly series, while a record whose date parses
(even if it later fails plausibility clamping) is counted in
`total_spent`. -/
theorem date_exclusion_asymmetry_amended :
    (∀ (fromDt toDt : Option Date) (r : ExpRow) (rows : List ExpRow),
      parsePortalDate r.dateRaw = none →
        (radarAgg (r :: rows) fromDt toDt).1 =
          pyOr0 r.amount + (radarAgg rows fromDt toDt).1)
    ∧ (∀ (r : WtRow) (rows : List WtRow), parsePortalDate r.dateRaw = none →
        wtTotalSpent (r :: rows) = wtTotalSpent rows
        ∧ ∀ now, wtMonthly now (r :: rows) = wtMonthly now rows)
    ∧ (∀ (r : WtRow) (rows : List WtRow) (d : Date),
        parsePortalDate r.dateRaw = some d →
          wtTotalSpent (r :: rows) = pyOr0 r.amount + wtTotalSpent rows) := by
  refine ⟨?_, ?_, ?_⟩
  · intro fromDt toDt r rows h
    have hkeep : radarKeeps fromDt toDt r = true := by
      simp [radarKeeps, h]
    rw [radarAgg_total, radarAgg_total, specSurvivorSum_cons, hkeep]
    simp
  · intro r rows h
    have hp : wtPairs (r :: rows) = wtPairs rows := by
      simp [wtPairs, List.filterMap_cons, h]
    exact ⟨by simp [wtTotalSpent, hp], fun now => by simp [wtMonthly, hp]⟩
  · intro r rows d h
    have hp : wtPairs (r :: rows) = (d, pyOr0 r.amount) :: wtPairs rows := by
      simp [wtPairs, List.filterMap_cons, h]
    simp [wtTotalSpent, hp]

/-- Closed witness for `date_exclusion_asymmetry_amended`: an unparseable
expenditure row still enters the radar total, an unparseable work-type
row enters neither work-type aggregate, and a parseable-but-implausible
work-type row enters the work-type total. -/
theorem date_exclusion_asymmetry_amended_witness :
    ((radarAgg [⟨some "Roads", some 7, some "bad-date", none, none, none⟩]
        none none).1 =
      pyOr0 (some 7) + (radarAgg [] none none).1)
    ∧ (wtTotalSpent [⟨some "bad-date", some 999⟩] = wtTotalSpent []
        ∧ wtMonthly ⟨2026, 6, 1⟩ [⟨some "bad-date", some 999⟩] =
            wtMonthly ⟨2026, 6, 1⟩ [])
    ∧ wtTotalSpent [⟨some "09-Jan-1999", some 100⟩] =
        pyOr0 (some 100) + wtTotalSpent [] := by
  refine ⟨?_, ?_, ?_⟩
  · exact date_exclusion_asymmetry_amended.1 none none
      ⟨some "Roads", some 7, some "bad-date", none, none, none⟩ [] (by decide)
  · have h := date_exclusion_asymmetry_amended.2.1
      ⟨some "bad-date", some 999⟩ [] (by decide)
    exact ⟨h.1, h.2 ⟨2026, 6, 1⟩⟩
  · exact date_exclusion_asymmetry_amended.2.2
      ⟨some "09-Jan-1999", some 100⟩ [] ⟨1999, 1, 9⟩ (by decide)

/-- C5 (confirmed). `lift_vs_national` of `get_category_radar` equals
`scoped_share / national_share` exactly when the scope is a truthy state
filter with no MP and no vendor filter and the national share of the
category is strictly positive; in every other situation (including a
zero national total or zero national share) it is `None` — never
infinity, never a division fault. -/
theorem category_radar_lift_spec (state mp vendor : Option String)
    (allRows : List ExpRow) (fromDt toDt : Option Date) (act : String) :
    radarLiftForCat state mp vendor allRows fromDt toDt act =
      if (truthyS state = true ∧ truthyS mp = false ∧ truthyS vendor = false)
          ∧ 0 < radarNatShare allRows fromDt toDt act then
        some (radarScopedShare state mp vendor allRows fromDt toDt act /
          radarNatShare allRows fromDt toDt act)
      else none := by
  cases hs : truthyS state <;> cases hm : truthyS mp <;>
    cases hv : truthyS vendor <;>
      simp [radarLiftForCat, hs, hm, hv]
  by_cases hA : specSurvivorSum allRows fromDt toDt = 0
  · simp [radarNatShare, radarAgg_total, hA]
  · simp [radarNatShare, radarScopedShare, radarAgg_total, radarAgg_getD, hA]

/-- C6 counterexample. The category profile
`spent = 3e7, top3_vendor_share = 90, distinct_vendor_count = 5` does
fire the concentration rule with severity `high`, but the emitted flag
carries the code `"vendor_concentration"`; no flag with the claimed code
`"category_vendor_concentration"` exists in the radar output. -/
theorem category_vendor_flag_code_counterexample :
    (radarFlagsFor ⟨"Road Works", 30000000, 12, 5, 0, 0, 90, none⟩).filter
        (fun fl => fl.code == "category_vendor_concentration") = []
    ∧ RadarFlag.mk "vendor_concentration" "high" "Road Works" ∈
        radarFlagsFor ⟨"Road Works", 30000000, 12, 5, 0, 0, 90, none⟩ := by
  refine ⟨by decide, by decide⟩

/-- C6 (amended). For every category in the radar response, a flag with
code `vendor_concentration` (not `category_vendor_concentration`) fires
exactly when `category_spent ≥ 2×10⁷` and `top3_vendor_share ≥ 70` and
`distinct_vendor_count ≥ 3`, with severity `high` when
`top3_vendor_share ≥ 85` and `warning` otherwise; the three concrete
profiles of the claim behave as stated under this code. -/
theorem category_vendor_flag_amended :
    (∀ (c : CatProfile) (sev : String),
      (RadarFlag.mk "vendor_concentration" sev c.activity ∈ radarFlagsFor c) ↔
        ((20000000 ≤ c.spent ∧ 70 ≤ c.top3VendorPct ∧ 3 ≤ c.vendorCount) ∧
          sev = (if 85 ≤ c.top3VendorPct then "high" else "warning")))
    ∧ RadarFlag.mk "vendor_concentration" "high" "X" ∈
        radarFlagsFor ⟨"X", 30000000, 12, 5, 0, 0, 90, none⟩
    ∧ RadarFlag.mk "vendor_concentration" "warning" "X" ∈
        radarFlagsFor ⟨"X", 30000000, 12, 5, 0, 0, 72, none⟩
    ∧ (∀ (c : CatProfile) (sev : String), c.spent = 1000000 →
        RadarFlag.mk "vendor_concentration" sev c.activity ∉ radarFlagsFor c) := by
  have key : ∀ (c : CatProfile) (sev : String),
      (RadarFlag.mk "vendor_concentration" sev c.activity ∈ radarFlagsFor c) ↔
        ((20000000 ≤ c.spent ∧ 70 ≤ c.top3VendorPct ∧ 3 ≤ c.vendorCount) ∧
          sev = (if 85 ≤ c.top3VendorPct then "high" else "warning")) := by
    intro c sev
    have hne1 : ("vendor_concentration" : String) ≠ "state_lift" := by decide
    have hne2 : ("vendor_concentration" : String) ≠
        "high_spend_low_transparency" := by decide
    cases hl : c.liftVsNational with
    | none =>
      by_cases hB : 20000000 ≤ c.spent ∧ 10 ≤ c.completedWorks ∧
          c.transparencyPct ≤ 30 <;>
        by_cases hC : 20000000 ≤ c.spent ∧ 70 ≤ c.top3VendorPct ∧
            3 ≤ c.vendorCount <;>
          simp [radarFlagsFor, hl, hB, hC, RadarFlag.mk.injEq, hne1, hne2]
    | some l =>
      by_cases hA : 2 ≤ l ∧ 20000000 ≤ c.spent ∧ 5 ≤ c.mpCount <;>
        by_cases hB : 20000000 ≤ c.spent ∧ 10 ≤ c.completedWorks ∧
            c.transparencyPct ≤ 30 <;>
          by_cases hC : 20000000 ≤ c.spent ∧ 70 ≤ c.top3VendorPct ∧
              3 ≤ c.vendorCount <;>
            simp [radarFlagsFor, hl, hA, hB, hC, RadarFlag.mk.injEq, hne1, hne2]
  refine ⟨key, ?_, ?_, ?_⟩
  · exact (key ⟨"X", 30000000, 12, 5, 0, 0, 90, none⟩ "high").mpr
      ⟨⟨by norm_num, by norm_num, by norm_num⟩, by norm_num⟩
  · exact (key ⟨"X", 30000000, 12, 5, 0, 0, 72, none⟩ "warning").mpr
      ⟨⟨by norm_num, by norm_num, by norm_num⟩, by norm_num⟩
  · intro c sev hs hmem
    have h := (key c sev).mp hmem
    rw [hs] at h
    have hlt : ¬ ((20000000 : ℚ) ≤ 1000000) := by norm_num
    exact hlt h.1.1

/-- Closed witness for `category_vendor_flag_amended`: the `1e6` profile
of the claim fires no concentration flag however concentrated its
vendors are. -/
theorem category_vendor_flag_amended_witness :
    RadarFlag.mk "vendor_concentration" "high" "X" ∉
      radarFlagsFor ⟨"X", 1000000, 12, 5, 0, 0, 90, none⟩ := by
  exact category_vendor_flag_amended.2.2.2
    ⟨"X", 1000000, 12, 5, 0, 0, 90, none⟩ "high" rfl

/-- C9 (confirmed). Every refresh-job registry entry is created with
status `running` and `finished_at = None`, its status changes exactly
once along the update sequence of `_start_refresh_job` — to `succeeded`
on success and to `failed` (recording the error message) on an
exception — it never returns to `running`, `finished_at` is only ever
set after the job has left `running`, and the final registry state
carries both the terminal status and a set `finished_at`. -/
theorem refresh_job_lifecycle (o : Except String Unit) (t : String) :
    (jobTrace o t).head? = some ⟨JobStatus.running, none, none⟩
    ∧ statusChanges ((jobTrace o t).map JobRec.status) = 1
    ∧ finalStatus o ≠ JobStatus.running
    ∧ (∀ r ∈ (jobTrace o t).tail, r.status = finalStatus o)
    ∧ (∀ r ∈ jobTrace o t, r.finishedAt ≠ none → r.status ≠ JobStatus.running)
    ∧ (jobTrace o t).getLast? =
        some ⟨finalStatus o, some t,
          match o with
          | Except.ok _ => none
          | Except.error e => some e⟩ := by
  cases o with
  | ok u =>
    refine ⟨rfl, rfl, by simp [finalStatus], ?_, ?_, rfl⟩
    · intro r hr
      simp only [jobTrace, List.tail_cons, List.mem_cons,
        List.mem_singleton] at hr
      rcases hr with h | h | h
      · subst h; rfl
      · subst h; rfl
      · simp at h
    · intro r hr hf
      simp only [jobTrace, List.mem_cons, List.mem_singleton] at hr
      rcases hr with h | h | h | h
      · subst h; simp at hf
      · subst h; simp
      · subst h; simp
      · simp at h
  | error e =>
    refine ⟨rfl, rfl, by simp [finalStatus], ?_, ?_, rfl⟩
    · intro r hr
      simp only [jobTrace, List.tail_cons, List.mem_cons,
        List.mem_singleton] at hr
      rcases hr with h | h | h | h
      · subst h; rfl
      · subst h; rfl
      · subst h; rfl
      · simp at h
    · intro r hr hf
      simp only [jobTrace, List.mem_cons, List.mem_singleton] at hr
      rcases hr with h | h | h | h | h
      · subst h; simp at hf
      · subst h; simp
      · subst h; simp
      · subst h; simp
      · simp at h

/-- C10 (confirmed). For every query string shorter than two characters,
`search_items` returns the empty result list, issues zero storage
queries, and its behavior is independent of the storage boundary. -/
theorem search_short_query_no_storage (q : String) (db db2 : SearchStorage)
    (h : q.length < 2) :
    searchItems q db = ([], 0) ∧ searchItems q db = searchItems q db2 := by
  constructor <;> simp [searchItems, h]

/-- Closed witness for `search_short_query_no_storage` at the one-letter
query `"a"` with an empty and a non-empty storage. -/
theorem search_short_query_no_storage_witness :
    searchItems "a" ⟨fun _ => [], fun _ => [], fun _ => [], fun _ => []⟩ =
        ([], 0)
    ∧ searchItems "a" ⟨fun _ => [], fun _ => [], fun _ => [], fun _ => []⟩ =
        searchItems "a"
          ⟨fun _ => [("MP X", "State S", "Const K")], fun _ => [],
            fun _ => [], fun _ => []⟩ := by
  exact search_short_query_no_storage "a"
    ⟨fun _ => [], fun _ => [], fun _ => [], fun _ => []⟩
    ⟨fun _ => [("MP X", "State S", "Const K")], fun _ => [],
      fun _ => [], fun _ => []⟩ (by decide)

end Govwork
